import Mathlib

/-!
Verification of the batch configuration-collection engine in `src/main.py`
(auto-collection-config). The Python source is shallowly embedded: device
records become structures, the remote-shell collaborator (netmiko) becomes an
oracle of response functions, the filesystem becomes a map from paths to file
contents, and each source function becomes a Lean function over those.
-/

namespace AutoCollect

/-- A cell value in the inventory spreadsheet: integer, string, or missing
    (pandas `None`). -/
inductive CellVal
  | vInt (n : Int)
  | vStr (s : String)
  | vNone
  deriving DecidableEq, Repr

/-- A loaded spreadsheet: its column names and its rows
    (each row an association list from column name to cell value),
    mirroring the pandas dataframe used by `load_devices_from_excel_conf`. -/
structure InventoryFrame where
  columns : List String
  rows : List (List (String × CellVal))
  deriving DecidableEq, Repr

/-- Adding a constant column to a dataframe (`df[c] = v`). -/
def addColumn (df : InventoryFrame) (c : String) (v : CellVal) : InventoryFrame :=
  { columns := df.columns ++ [c]
    rows := df.rows.map (fun r => r ++ [(c, v)]) }

/-- The `required_columns` list of `load_devices_from_excel_conf`
    (src/main.py line 31). -/
def required_columns : List String :=
  ["ip", "port", "device_type", "username", "password"]

/-- `load_devices_from_excel_conf` (src/main.py lines 19-55), after the Excel
    file has been parsed into a dataframe: reject the inventory (return `[]`)
    when any required column is missing, default the `port`, `secret` and
    `description` columns when absent, and return the rows as records. -/
def load_devices_from_excel_conf (df : InventoryFrame) : List (List (String × CellVal)) :=
  let missing_cols := required_columns.filter (fun c => ¬ df.columns.contains c)
  if missing_cols ≠ [] then []
  else
    let df1 := if df.columns.contains "port" then df else addColumn df "port" (.vInt 22)
    let df2 := if df1.columns.contains "secret" then df1 else addColumn df1 "secret" .vNone
    let df3 := if df2.columns.contains "description" then df2
               else addColumn df2 "description" (.vStr "")
    df3.rows

/-- A device record as consumed by the collection engine: one row of the
    inventory (`ip`, `port`, `device_type`, `username`, `password`,
    optional `secret`, `description`). -/
structure Device where
  ip : String
  port : Nat
  device_type : String
  username : String
  password : String
  secret : Option String
  description : String
  deriving DecidableEq, Repr

/-- The connection-parameter dictionary handed to `ConnectHandler`:
    a copy of the device record with the `description` key deleted
    (src/main.py lines 68-75). -/
structure ConnParams where
  ip : String
  port : Nat
  device_type : String
  username : String
  password : String
  secret : Option String
  deriving DecidableEq, Repr

/-- `conn_params = device.copy(); del conn_params['description']`:
    the working copy derived from a stored device profile. -/
def connParamsOf (d : Device) : ConnParams :=
  ⟨d.ip, d.port, d.device_type, d.username, d.password, d.secret⟩

/-- `get_config_command` (src/main.py lines 105-120): dictionary lookup from
    device type to retrieval command, with `'show running-config'` as the
    `dict.get` default. -/
def get_config_command (device_type : String) : String :=
  if device_type = "cisco_ios" then "show running-config"
  else if device_type = "cisco_nxos" then "show running-config"
  else if device_type = "huawei" then "display current-configuration"
  else if device_type = "h3c" then "display current-configuration"
  else if device_type = "hp_comware" then "display current-configuration"
  else if device_type = "juniper_junos" then "show configuration"
  else if device_type = "arista_eos" then "show running-config"
  else if device_type = "fortinet" then "show full-configuration"
  else if device_type = "paloalto_panos" then "show configuration running"
  else "show running-config"

/-- The keys of the `commands` dictionary in `get_config_command`. -/
def known_dialects : List String :=
  ["cisco_ios", "cisco_nxos", "huawei", "h3c", "hp_comware",
   "juniper_junos", "arista_eos", "fortinet", "paloalto_panos"]

/-- A wall-clock instant, as produced by `datetime.now()`. -/
structure DateTime where
  year : Nat
  month : Nat
  day : Nat
  hour : Nat
  minute : Nat
  second : Nat
  deriving DecidableEq, Repr

/-- Zero-padded two-digit rendering of a field, as `strftime` does. -/
def pad2 (n : Nat) : String :=
  if n < 10 then "0" ++ toString n else toString n

/-- Four-digit rendering of a year, as `strftime('%Y')` does. -/
def pad4 (n : Nat) : String :=
  if n < 10 then "000" ++ toString n
  else if n < 100 then "00" ++ toString n
  else if n < 1000 then "0" ++ toString n
  else toString n

/-- `op_time.strftime('%Y%m%d')` — the daily-rotation component of the
    archive file name. -/
def fmtDay (t : DateTime) : String :=
  pad4 t.year ++ pad2 t.month ++ pad2 t.day

/-- `op_time.strftime('%Y-%m-%d %H:%M:%S')` — the header timestamp. -/
def fmtFull (t : DateTime) : String :=
  pad4 t.year ++ "-" ++ pad2 t.month ++ "-" ++ pad2 t.day ++ " " ++
  pad2 t.hour ++ ":" ++ pad2 t.minute ++ ":" ++ pad2 t.second

/-- The calendar day of an instant. -/
def calendarDay (t : DateTime) : Nat × Nat × Nat :=
  (t.year, t.month, t.day)

/-- The filesystem: a map from file paths to file contents. -/
def Fs : Type := String → Option String

/-- The archive file path built in `save_config_to_file`
    (src/main.py lines 136-137): `output_dir/ip_YYYYMMDD.txt`. -/
def archivePath (output_dir ip : String) (t : DateTime) : String :=
  output_dir ++ "/" ++ ip ++ "_" ++ fmtDay t ++ ".txt"

/-- The fixed delimiter line written after every block
    (src/main.py line 144). -/
def delimiter_line : String :=
  "## --=========================================================--"

/-- One archive block: header line (timestamp and command), raw output,
    delimiter line (src/main.py lines 139-144). -/
def archiveBlock (t : DateTime) (command config : String) : String :=
  "# " ++ fmtFull t ++ " " ++ command ++ "\n" ++ config ++ "\n" ++
  delimiter_line ++ "\n"

/-- `save_config_to_file` (src/main.py lines 123-151). `ok` models whether the
    write raises an OS exception (the `except` at lines 149-151 returns `None`);
    on success the block is appended to the file if it exists and starts the
    file otherwise, and the file path is returned. -/
def save_config_to_file (ok : Bool) (ip command config output_dir : String)
    (t : DateTime) (fs : Fs) : Option String × Fs :=
  if ok then
    let file_path := archivePath output_dir ip t
    let newContent := (match fs file_path with
      | some old => old
      | none => "") ++ archiveBlock t command config
    (some file_path, fun p => if p = file_path then some newContent else fs p)
  else (none, fs)

/-- The transport-level failure taxonomy of the netmiko collaborator:
    `NetMikoTimeoutException`, `NetMikoAuthenticationException`, or any other
    exception raised by `ConnectHandler`. -/
inductive ConnectError
  | timeout
  | authFailure
  | other
  deriving DecidableEq, Repr

/-- Which `except` clause of `get_switch_config` (src/main.py lines 92-100)
    caught the failure: connection timeout, authentication failure, or the
    generic handler (open with another error, `enable` failure, or
    `send_command` failure). -/
inductive ErrorKind
  | connectTimeout
  | authFailure
  | otherFailure
  deriving DecidableEq, Repr

/-- The error kind logged for each kind of connection failure. -/
def kindOfConnect : ConnectError → ErrorKind
  | .timeout => .connectTimeout
  | .authFailure => .authFailure
  | .other => .otherFailure

/-- An observable interaction with the remote-shell collaborator:
    `ConnectHandler(**conn_params)`, `conn.enable()`, or
    `conn.send_command(cmd)`. -/
inductive SessionEvent
  | evOpen (p : ConnParams)
  | evEnable (p : ConnParams)
  | evRun (p : ConnParams) (cmd : String)
  deriving DecidableEq, Repr

/-- The oracle for the external collaborators: how the transport responds to
    each lifecycle call, whether an archive write for a given host raises,
    and the wall clock at the i-th device of a pass. -/
structure Transport where
  openResult : ConnParams → Option ConnectError
  enableOk : ConnParams → Bool
  runResult : ConnParams → String → Option String
  persistOk : String → Bool
  clock : Nat → DateTime

/-- Python truthiness of `conn_params.get('secret')`: a secret is present and
    non-empty (src/main.py line 80). -/
def secretTruthy (s : Option String) : Bool :=
  (s.getD "") ≠ ""

/-- `command = input_command if input_command else
    get_config_command(conn_params['device_type'])` (src/main.py line 84):
    an absent or empty caller command falls back to the resolver. -/
def chooseCommand (input_command : Option String) (device_type : String) : String :=
  match input_command with
  | some c => if c ≠ "" then c else get_config_command device_type
  | none => get_config_command device_type

/-- The result of one `get_switch_config` call: the pair the Python function
    returns (`command, output` on success, `None, None` on failure), the
    error kind logged when an exception was caught, and the trace of
    collaborator calls made. -/
structure SessionAttempt where
  command : Option String
  output : Option String
  errorKind : Option ErrorKind
  events : List SessionEvent
  deriving DecidableEq, Repr

/-- The command-execution phase of `get_switch_config`
    (src/main.py lines 84-90), reached once the session is open and any
    privilege escalation has succeeded. -/
def run_command_phase (env : Transport) (p : ConnParams)
    (input_command : Option String) (evs : List SessionEvent) : SessionAttempt :=
  let command := chooseCommand input_command p.device_type
  match env.runResult p command with
  | some output => ⟨some command, some output, none, evs ++ [.evRun p command]⟩
  | none => ⟨none, none, some .otherFailure, evs ++ [.evRun p command]⟩

/-- `get_switch_config` (src/main.py lines 58-102): copy the device record,
    drop `description`, open the session, escalate if a secret is present,
    execute the resolved command; every exception is caught and turned into
    the `(None, None)` return. -/
def get_switch_config (env : Transport) (device : Device)
    (input_command : Option String) : SessionAttempt :=
  let conn_params := connParamsOf device
  match env.openResult conn_params with
  | some e => ⟨none, none, some (kindOfConnect e), [.evOpen conn_params]⟩
  | none =>
    if secretTruthy conn_params.secret then
      if env.enableOk conn_params then
        run_command_phase env conn_params input_command
          [.evOpen conn_params, .evEnable conn_params]
      else
        ⟨none, none, some .otherFailure,
          [.evOpen conn_params, .evEnable conn_params]⟩
    else
      run_command_phase env conn_params input_command [.evOpen conn_params]

/-- The per-device record a pass produces: the device processed, and the
    `command, config` pair `process_connection` receives from
    `get_switch_config`, with the error kind logged on failure. -/
structure CollectionOutcome where
  device : Device
  command : Option String
  output : Option String
  errorKind : Option ErrorKind
  deriving DecidableEq, Repr

/-- `if config:` (src/main.py line 176): the device counts as a success
    exactly when its output is present and non-empty. -/
def CollectionOutcome.succeeded (o : CollectionOutcome) : Bool :=
  (o.output.getD "") ≠ ""

/-- The loop body of `process_connection` (src/main.py lines 167-182) over the
    remaining devices: `i` is the position in the pass (feeding the wall
    clock of each `datetime.now()` call), `fs` the filesystem. Returns the
    per-device outcomes in order, the success count, and the filesystem. -/
def process_connection_go (env : Transport) (output_dir : String)
    (input_command : Option String) :
    List Device → Nat → Fs → List CollectionOutcome × Nat × Fs
  | [], _, fs => ([], 0, fs)
  | d :: rest, i, fs =>
    let att := get_switch_config env d input_command
    let fs1 :=
      if (att.output.getD "") ≠ "" then
        (save_config_to_file (env.persistOk d.ip) d.ip (att.command.getD "")
          (att.output.getD "") output_dir (env.clock i) fs).2
      else fs
    let succ : Nat := if (att.output.getD "") ≠ "" then 1 else 0
    let r := process_connection_go env output_dir input_command rest (i + 1) fs1
    (⟨d, att.command, att.output, att.errorKind⟩ :: r.1, succ + r.2.1, r.2.2)

/-- `process_connection` (src/main.py lines 154-187): one pass over the device
    list, returning the ordered outcomes, the success count (the function's
    Python return value), and the resulting filesystem. -/
def process_connection (env : Transport) (devices : List Device)
    (output_dir : String) (input_command : Option String) (fs : Fs) :
    List CollectionOutcome × Nat × Fs :=
  process_connection_go env output_dir input_command devices 0 fs

/-- The state of the interactive loop in `execute_other_command`
    (src/main.py lines 205-235): waiting for a command, waiting for the
    yes/no confirmation of an entered command, or stopped. -/
inductive LoopState
  | awaitingCommand
  | awaitingConfirmation (cmd : String)
  | stopped
  deriving DecidableEq, Repr

/-- `input(...).lower()`: lowercase every character of the operator's
    answer. -/
def strLower (s : String) : String :=
  ⟨s.data.map Char.toLower⟩

/-- One prompt-read of `execute_other_command`: from AwaitingCommand, the
    sentinel `exit` stops the loop and anything else moves to confirmation
    (line 214); from AwaitingConfirmation, a lowercased `y` triggers a pass
    with the entered command and anything else stops (lines 219-222).
    The second component is the command to run a pass with, if any. -/
def loopStep : LoopState → String → LoopState × Option String
  | .awaitingCommand, inp =>
    if inp = "exit" then (.stopped, none) else (.awaitingConfirmation inp, none)
  | .awaitingConfirmation cmd, inp =>
    if strLower inp = "y" then (.awaitingCommand, some cmd)
    else (.stopped, none)
  | .stopped, _ => (.stopped, none)

/-- The archive directory used by ad-hoc passes
    (`os.path.join("config_storage", "other")`, src/main.py line 227). -/
def other_dir : String := "config_storage/other"

/-- `execute_other_command` (src/main.py lines 205-235) run over a finite
    list of operator inputs from a given loop state: each affirmatively
    confirmed command runs one `process_connection` pass against `other_dir`;
    the returned list holds each pass's success count. -/
def execute_other_command_go (env : Transport) (devices : List Device) :
    LoopState → List String → Fs → List Nat × Fs
  | _, [], fs => ([], fs)
  | s, inp :: rest, fs =>
    match loopStep s inp with
    | (.stopped, _) => ([], fs)
    | (s', none) => execute_other_command_go env devices s' rest fs
    | (s', some cmd) =>
      let r := process_connection env devices other_dir (some cmd) fs
      let r' := execute_other_command_go env devices s' rest r.2.2
      (r.2.1 :: r'.1, r'.2)

/-- `execute_other_command` from its initial state. -/
def execute_other_command (env : Transport) (devices : List Device)
    (inputs : List String) (fs : Fs) : List Nat × Fs :=
  execute_other_command_go env devices .awaitingCommand inputs fs

/-! ### Concrete instances used by witnesses -/

/-- A fixed instant. -/
def dt0 : DateTime := ⟨2026, 10, 12, 9, 30, 0⟩

/-- A later instant on the same calendar day as `dt0`. -/
def dt1 : DateTime := ⟨2026, 10, 12, 17, 5, 3⟩

/-- A sample device without a privilege secret. -/
def devA : Device := ⟨"10.0.0.1", 22, "cisco_ios", "admin", "pw", none, "core"⟩

/-- A sample device with a privilege secret. -/
def devB : Device := ⟨"10.0.0.2", 22, "huawei", "admin", "pw", some "sec", ""⟩

/-- The empty filesystem. -/
def fs0 : Fs := fun _ => none

/-- A transport on which every connection attempt times out. -/
def envAllFail : Transport :=
  ⟨fun _ => some .timeout, fun _ => false, fun _ _ => none, fun _ => false,
    fun _ => dt0⟩

/-- A transport on which sessions open and escalate fine but every command
    returns an empty output, with archive writes succeeding. -/
def envEmptyOut : Transport :=
  ⟨fun _ => none, fun _ => true, fun _ _ => some "", fun _ => true,
    fun _ => dt0⟩

/-- A transport on which collection succeeds with a fixed output but every
    archive write raises. -/
def envNoPersist : Transport :=
  ⟨fun _ => none, fun _ => true, fun _ _ => some "hostname sw1", fun _ => false,
    fun _ => dt0⟩

/-! ### Helper lemmas -/

/-- Each step of the pass prepends the current device's outcome and recurses
    on the rest, so the outcomes retain the original device records in input
    order. -/
theorem process_connection_go_devices (env : Transport) (dir : String)
    (cmd : Option String) :
    ∀ (ds : List Device) (i : Nat) (fs : Fs),
      (process_connection_go env dir cmd ds i fs).1.map
        (fun o => o.device) = ds
  | [], _, _ => rfl
  | d :: rest, i, fs => by
    simp only [process_connection_go, List.map_cons, List.cons.injEq, true_and]
    exact process_connection_go_devices env dir cmd rest (i + 1) _

/-- A device whose `get_switch_config` returns a falsy config takes the
    failure branch of the pass: no archive write, no success increment, and
    the pass continues with the remaining devices. -/
theorem process_connection_go_cons_fail (env : Transport) (dir : String)
    (cmd : Option String) (d : Device) (rest : List Device) (i : Nat) (fs : Fs)
    (h : (get_switch_config env d cmd).output.getD "" = "") :
    process_connection_go env dir cmd (d :: rest) i fs =
      (⟨d, (get_switch_config env d cmd).command,
          (get_switch_config env d cmd).output,
          (get_switch_config env d cmd).errorKind⟩ ::
          (process_connection_go env dir cmd rest (i + 1) fs).1,
        (process_connection_go env dir cmd rest (i + 1) fs).2.1,
        (process_connection_go env dir cmd rest (i + 1) fs).2.2) := by
  simp [process_connection_go, h]

/-- A device whose `get_switch_config` returns a truthy config takes the
    success branch of the pass: the archive write is attempted, the success
    count increments, and the pass continues on the filesystem the write
    produced. -/
theorem process_connection_go_cons_succ (env : Transport) (dir : String)
    (cmd : Option String) (d : Device) (rest : List Device) (i : Nat) (fs : Fs)
    (out : String) (h : (get_switch_config env d cmd).output = some out)
    (hne : out ≠ "") :
    process_connection_go env dir cmd (d :: rest) i fs =
      (⟨d, (get_switch_config env d cmd).command, some out,
          (get_switch_config env d cmd).errorKind⟩ ::
          (process_connection_go env dir cmd rest (i + 1)
            (save_config_to_file (env.persistOk d.ip) d.ip
              ((get_switch_config env d cmd).command.getD "") out dir
              (env.clock i) fs).2).1,
        1 + (process_connection_go env dir cmd rest (i + 1)
            (save_config_to_file (env.persistOk d.ip) d.ip
              ((get_switch_config env d cmd).command.getD "") out dir
              (env.clock i) fs).2).2.1,
        (process_connection_go env dir cmd rest (i + 1)
            (save_config_to_file (env.persistOk d.ip) d.ip
              ((get_switch_config env d cmd).command.getD "") out dir
              (env.clock i) fs).2).2.2) := by
  simp [process_connection_go, h, hne]

/-- When the session open raises, `get_switch_config` returns `(None, None)`
    with the matching error kind after the single open attempt. -/
theorem get_switch_config_open_err (env : Transport) (d : Device)
    (cmd : Option String) (e : ConnectError)
    (h : env.openResult (connParamsOf d) = some e) :
    get_switch_config env d cmd =
      ⟨none, none, some (kindOfConnect e), [.evOpen (connParamsOf d)]⟩ := by
  simp [get_switch_config, h]

/-- Structural invariant of one collection attempt: the returned pair is
    `(some, some)` exactly when no exception was caught, and `(none, none)`
    otherwise. -/
theorem get_switch_config_invariant (env : Transport) (d : Device)
    (cmd : Option String) :
    ((get_switch_config env d cmd).output.isSome ↔
        (get_switch_config env d cmd).errorKind = none) ∧
    ((get_switch_config env d cmd).command.isSome ↔
        (get_switch_config env d cmd).output.isSome) := by
  unfold get_switch_config run_command_phase
  rcases hopen : env.openResult (connParamsOf d) with _ | e
  · by_cases hs : secretTruthy (connParamsOf d).secret
    · by_cases he : env.enableOk (connParamsOf d)
      · rcases hrun : env.runResult (connParamsOf d)
          (chooseCommand cmd (connParamsOf d).device_type) with _ | out <;>
          simp [hopen, hs, he, hrun]
      · simp [hopen, hs, he]
    · rcases hrun : env.runResult (connParamsOf d)
        (chooseCommand cmd (connParamsOf d).device_type) with _ | out <;>
        simp [hopen, hs, hrun]
  · simp [hopen]

/-- Every outcome of a pass is the attempt result of one of the input
    devices. -/
theorem process_connection_go_mem (env : Transport) (dir : String)
    (cmd : Option String) :
    ∀ (ds : List Device) (i : Nat) (fs : Fs) (o : CollectionOutcome),
      o ∈ (process_connection_go env dir cmd ds i fs).1 →
      ∃ d ∈ ds, o = ⟨d, (get_switch_config env d cmd).command,
        (get_switch_config env d cmd).output,
        (get_switch_config env d cmd).errorKind⟩
  | [], _, _, _, h => by simp [process_connection_go] at h
  | d :: rest, i, fs, o, h => by
    simp only [process_connection_go, List.mem_cons] at h
    rcases h with h | h
    · exact ⟨d, by simp, h⟩
    · obtain ⟨d', hd', ho⟩ :=
        process_connection_go_mem env dir cmd rest (i + 1) _ o h
      exact ⟨d', by simp [hd'], ho⟩

/-! ### Claims -/

/-- Claim C1: one pass of `process_connection` over a non-empty device list
    produces exactly one outcome per input device, the outcomes retain the
    devices in input order, and this holds for every transport behavior —
    no individual device failure aborts the pass. -/
theorem C1_pass_processes_every_device (env : Transport)
    (devices : List Device) (dir : String) (cmd : Option String) (fs : Fs)
    (h : devices ≠ []) :
    (process_connection env devices dir cmd fs).1.length = devices.length ∧
    (process_connection env devices dir cmd fs).1.map (fun o => o.device) =
      devices := by
  constructor
  · have := process_connection_go_devices env dir cmd devices 0 fs
    calc (process_connection env devices dir cmd fs).1.length
        = ((process_connection env devices dir cmd fs).1.map
            (fun o => o.device)).length := (List.length_map _ _).symm
      _ = devices.length := by rw [process_connection, this]
  · exact process_connection_go_devices env dir cmd devices 0 fs

/-- Witness for C1 at a concrete two-device list on a transport where every
    connection times out. -/
theorem C1_pass_processes_every_device_witness :
    ([devA, devB] : List Device) ≠ [] ∧
    ((process_connection envAllFail [devA, devB] "config_storage/normal"
        none fs0).1.length = 2 ∧
      (process_connection envAllFail [devA, devB] "config_storage/normal"
        none fs0).1.map (fun o => o.device) = [devA, devB]) :=
  ⟨by simp,
    C1_pass_processes_every_device envAllFail [devA, devB]
      "config_storage/normal" none fs0 (by simp)⟩

/-- Claim C2: a device whose session open fails with a connection timeout
    triggers neither `enable` nor `send_command` (its event trace is the
    single open attempt), is recorded as failed with the timeout error kind,
    and contributes no archive write — the pass continues with the remaining
    devices on the unchanged filesystem. -/
theorem C2_timeout_skips_session_and_archive (env : Transport) (d : Device)
    (cmd : Option String) (dir : String) (rest : List Device) (i : Nat)
    (fs : Fs) (h : env.openResult (connParamsOf d) = some .timeout) :
    (get_switch_config env d cmd).events = [.evOpen (connParamsOf d)] ∧
    (get_switch_config env d cmd).errorKind = some .connectTimeout ∧
    process_connection_go env dir cmd (d :: rest) i fs =
      (⟨d, none, none, some .connectTimeout⟩ ::
          (process_connection_go env dir cmd rest (i + 1) fs).1,
        (process_connection_go env dir cmd rest (i + 1) fs).2.1,
        (process_connection_go env dir cmd rest (i + 1) fs).2.2) := by
  have hgsc := get_switch_config_open_err env d cmd .timeout h
  refine ⟨by simp [hgsc], by simp [hgsc, kindOfConnect], ?_⟩
  rw [process_connection_go_cons_fail env dir cmd d rest i fs
    (by simp [hgsc])]
  simp [hgsc, kindOfConnect]

/-- Witness for C2 on the all-timeout transport with a concrete device. -/
theorem C2_timeout_skips_session_and_archive_witness :
    envAllFail.openResult (connParamsOf devA) = some .timeout ∧
    ((get_switch_config envAllFail devA none).events =
        [.evOpen (connParamsOf devA)] ∧
      (get_switch_config envAllFail devA none).errorKind =
        some .connectTimeout ∧
      process_connection_go envAllFail "config_storage/normal" none
          (devA :: [devB]) 0 fs0 =
        (⟨devA, none, none, some .connectTimeout⟩ ::
            (process_connection_go envAllFail "config_storage/normal" none
              [devB] 1 fs0).1,
          (process_connection_go envAllFail "config_storage/normal" none
            [devB] 1 fs0).2.1,
          (process_connection_go envAllFail "config_storage/normal" none
            [devB] 1 fs0).2.2)) :=
  ⟨rfl, C2_timeout_skips_session_and_archive envAllFail devA none
    "config_storage/normal" [devB] 0 fs0 rfl⟩

/-- Exactly one of the success output and the failure error kind is set on an
    outcome, keyed on how the pass tallies it (`if config:`): a collection
    counted as a success carries an output and no error kind, one counted as
    a failure carries an error kind and no output. -/
def outcomeExclusive (o : CollectionOutcome) : Prop :=
  (o.succeeded = true → o.output.isSome ∧ o.errorKind = none) ∧
  (o.succeeded = false → o.errorKind.isSome ∧ o.output = none)

/-- A collection attempt either fails with `(None, None)` and a logged error
    kind, or succeeds with a command and some (possibly empty) output and no
    error kind. -/
theorem get_switch_config_cases (env : Transport) (d : Device)
    (cmd : Option String) :
    ((get_switch_config env d cmd).output = none ∧
      (get_switch_config env d cmd).command = none ∧
      (get_switch_config env d cmd).errorKind.isSome) ∨
    (∃ s, (get_switch_config env d cmd).output = some s ∧
      (get_switch_config env d cmd).command.isSome ∧
      (get_switch_config env d cmd).errorKind = none) := by
  unfold get_switch_config run_command_phase
  rcases hopen : env.openResult (connParamsOf d) with _ | e
  · by_cases hs : secretTruthy (connParamsOf d).secret
    · by_cases he : env.enableOk (connParamsOf d)
      · rcases hrun : env.runResult (connParamsOf d)
          (chooseCommand cmd (connParamsOf d).device_type) with _ | out <;>
          simp [hopen, hs, he, hrun]
      · simp [hopen, hs, he]
    · rcases hrun : env.runResult (connParamsOf d)
        (chooseCommand cmd (connParamsOf d).device_type) with _ | out <;>
        simp [hopen, hs, hrun]
  · simp [hopen]

/-- Counterexample to claim C3 as stated: on a transport where the session
    opens fine but the command returns an empty output, the pass over one
    device produces an outcome that is tallied as a failure (`if config:` is
    falsy) yet carries no error kind — so a failed collection need not carry
    an error kind. -/
theorem C3_counterexample :
    (process_connection envEmptyOut [devA] "config_storage/normal" none
        fs0).1 =
      [⟨devA, some "show running-config", some "", none⟩] ∧
    ¬ outcomeExclusive ⟨devA, some "show running-config", some "", none⟩ := by
  constructor
  · rfl
  · intro hx
    have := hx.2 (by decide)
    simp at this

/-- Claim C3 (amended): for every outcome of a pass, output presence and
    error-kind presence are mutually exclusive and exhaustive — an outcome
    carries an error kind iff it carries no output. An outcome tallied as a
    success carries a non-empty output and no error kind; an outcome tallied
    as a failure carries either an error kind and no output (a caught session
    error) or an empty output and no error kind (the command completed but
    returned nothing). -/
theorem C3_outcome_exclusivity_amended (env : Transport)
    (devices : List Device) (dir : String) (cmd : Option String) (fs : Fs)
    (o : CollectionOutcome)
    (h : o ∈ (process_connection env devices dir cmd fs).1) :
    (o.output.isSome ↔ o.errorKind = none) ∧
    (o.succeeded = true →
      o.errorKind = none ∧ ∃ s, o.output = some s ∧ s ≠ "") ∧
    (o.succeeded = false →
      (o.errorKind.isSome ∧ o.output = none) ∨
      (o.output = some "" ∧ o.errorKind = none)) := by
  obtain ⟨d, _, rfl⟩ := process_connection_go_mem env dir cmd devices 0 fs o h
  rcases get_switch_config_cases env d cmd with ⟨h1, _, h3⟩ | ⟨s, h1, _, h3⟩
  · have hne : (get_switch_config env d cmd).errorKind ≠ none :=
      Option.isSome_iff_ne_none.mp h3
    refine ⟨by simp [h1, hne], ?_, fun _ => Or.inl ⟨h3, h1⟩⟩
    intro hsuc
    simp [CollectionOutcome.succeeded, h1] at hsuc
  · refine ⟨by simp [h1, h3], ?_, ?_⟩
    · intro hsuc
      simp only [CollectionOutcome.succeeded, h1, Option.getD_some,
        ne_eq, decide_eq_true_eq] at hsuc
      exact ⟨h3, s, h1, hsuc⟩
    · intro hns
      simp only [CollectionOutcome.succeeded, h1, Option.getD_some,
        ne_eq, decide_eq_false_iff_not, not_not] at hns
      exact Or.inr ⟨hns ▸ h1, h3⟩

/-- Witness for the amended C3 at the all-timeout transport: the single
    outcome is a member of the pass and satisfies the amended invariant. -/
theorem C3_outcome_exclusivity_amended_witness :
    (⟨devA, none, none, some .connectTimeout⟩ : CollectionOutcome) ∈
      (process_connection envAllFail [devA] "config_storage/normal" none
        fs0).1 ∧
    ((Option.isSome (none : Option String) ↔
        (some ErrorKind.connectTimeout : Option ErrorKind) = none) ∧
      (CollectionOutcome.succeeded ⟨devA, none, none, some .connectTimeout⟩ =
          true →
        (some ErrorKind.connectTimeout : Option ErrorKind) = none ∧
          ∃ s, (none : Option String) = some s ∧ s ≠ "") ∧
      (CollectionOutcome.succeeded ⟨devA, none, none, some .connectTimeout⟩ =
          false →
        ((some ErrorKind.connectTimeout : Option ErrorKind).isSome ∧
            (none : Option String) = none) ∨
          ((none : Option String) = some "" ∧
            (some ErrorKind.connectTimeout : Option ErrorKind) = none))) :=
  ⟨by decide,
    C3_outcome_exclusivity_amended envAllFail [devA] "config_storage/normal"
      none fs0 ⟨devA, none, none, some .connectTimeout⟩ (by decide)⟩

/-- The `%Y%m%d` rendering depends only on the calendar day. -/
theorem fmtDay_eq_of_calendarDay_eq (t1 t2 : DateTime)
    (h : calendarDay t1 = calendarDay t2) : fmtDay t1 = fmtDay t2 := by
  simp only [calendarDay, Prod.mk.injEq] at h
  obtain ⟨hy, hm, hd⟩ := h
  simp [fmtDay, hy, hm, hd]

/-- The archive file path depends only on the host and the calendar day of
    the write time. -/
theorem archivePath_eq_of_same_day (dir ip : String) (t1 t2 : DateTime)
    (h : calendarDay t1 = calendarDay t2) :
    archivePath dir ip t1 = archivePath dir ip t2 := by
  simp [archivePath, fmtDay_eq_of_calendarDay_eq t1 t2 h]

/-- A filesystem already holding an archive file for `devA` on day `dt0`. -/
def fsOld : Fs :=
  fun p => if p = archivePath "config_storage/normal" "10.0.0.1" dt0
    then some "OLD" else none

/-- Claim C4: the archive file path is a deterministic function of the host
    and the calendar day of the write time; a successful write returns that
    path; two successful same-host same-day writes leave one file holding the
    two header+body+delimiter blocks in write order, the first block intact;
    and in general a write to an existing file appends its block after the
    previous contents, never overwriting them. -/
theorem C4_daily_archive_accumulates (dir ip c1 g1 c2 g2 c g : String)
    (t1 t2 t : DateTime) (fs fs' : Fs) (old : String)
    (hday : calendarDay t1 = calendarDay t2)
    (hnew : fs (archivePath dir ip t1) = none)
    (hold : fs' (archivePath dir ip t) = some old) :
    archivePath dir ip t2 = archivePath dir ip t1 ∧
    (save_config_to_file true ip c1 g1 dir t1 fs).1 =
      some (archivePath dir ip t1) ∧
    (save_config_to_file true ip c2 g2 dir t2
        (save_config_to_file true ip c1 g1 dir t1 fs).2).2
        (archivePath dir ip t1) =
      some (archiveBlock t1 c1 g1 ++ archiveBlock t2 c2 g2) ∧
    (save_config_to_file true ip c g dir t fs').2 (archivePath dir ip t) =
      some (old ++ archiveBlock t c g) := by
  have hpath := (archivePath_eq_of_same_day dir ip t1 t2 hday).symm
  have happend : ∀ (c' g' : String) (t' : DateTime) (fs'' : Fs)
      (old' : String), fs'' (archivePath dir ip t') = some old' →
      (save_config_to_file true ip c' g' dir t' fs'').2
        (archivePath dir ip t') = some (old' ++ archiveBlock t' c' g') := by
    intro c' g' t' fs'' old' hold'
    simp [save_config_to_file, hold']
  refine ⟨hpath, rfl, ?_, happend c g t fs' old hold⟩
  have h1 : (save_config_to_file true ip c1 g1 dir t1 fs).2
      (archivePath dir ip t1) = some (archiveBlock t1 c1 g1) := by
    simp [save_config_to_file, hnew]
  have h2 := happend c2 g2 t2 (save_config_to_file true ip c1 g1 dir t1 fs).2
    (archiveBlock t1 c1 g1) (by rw [hpath]; exact h1)
  rw [hpath] at h2
  exact h2

/-- Witness for C4: two writes for host 10.0.0.1 on the same calendar day,
    plus an append onto a file already holding `OLD`. -/
theorem C4_daily_archive_accumulates_witness :
    calendarDay dt0 = calendarDay dt1 ∧
    fs0 (archivePath "config_storage/normal" "10.0.0.1" dt0) = none ∧
    fsOld (archivePath "config_storage/normal" "10.0.0.1" dt0) = some "OLD" ∧
    (archivePath "config_storage/normal" "10.0.0.1" dt1 =
        archivePath "config_storage/normal" "10.0.0.1" dt0 ∧
      (save_config_to_file true "10.0.0.1" "show running-config" "cfg v1"
          "config_storage/normal" dt0 fs0).1 =
        some (archivePath "config_storage/normal" "10.0.0.1" dt0) ∧
      (save_config_to_file true "10.0.0.1" "show running-config" "cfg v2"
          "config_storage/normal" dt1
          (save_config_to_file true "10.0.0.1" "show running-config" "cfg v1"
            "config_storage/normal" dt0 fs0).2).2
          (archivePath "config_storage/normal" "10.0.0.1" dt0) =
        some (archiveBlock dt0 "show running-config" "cfg v1" ++
          archiveBlock dt1 "show running-config" "cfg v2") ∧
      (save_config_to_file true "10.0.0.1" "show clock" "out"
          "config_storage/normal" dt0 fsOld).2
          (archivePath "config_storage/normal" "10.0.0.1" dt0) =
        some ("OLD" ++ archiveBlock dt0 "show clock" "out")) :=
  ⟨by decide, rfl, rfl,
    C4_daily_archive_accumulates "config_storage/normal" "10.0.0.1"
      "show running-config" "cfg v1" "show running-config" "cfg v2"
      "show clock" "out" dt0 dt1 dt0 fs0 fsOld "OLD" (by decide) rfl rfl⟩

/-- Claim C5: a device whose collection succeeds with a non-empty output is
    counted in the success tally even when the archive write fails
    (`PersistError` caught); the pass continues with the remaining devices on
    the unchanged filesystem. -/
theorem C5_persist_failure_keeps_success (env : Transport) (d : Device)
    (cmd : Option String) (out dir : String) (rest : List Device) (i : Nat)
    (fs : Fs) (h1 : (get_switch_config env d cmd).output = some out)
    (h2 : out ≠ "") (h3 : env.persistOk d.ip = false) :
    process_connection_go env dir cmd (d :: rest) i fs =
      (⟨d, (get_switch_config env d cmd).command, some out,
          (get_switch_config env d cmd).errorKind⟩ ::
          (process_connection_go env dir cmd rest (i + 1) fs).1,
        1 + (process_connection_go env dir cmd rest (i + 1) fs).2.1,
        (process_connection_go env dir cmd rest (i + 1) fs).2.2) := by
  rw [process_connection_go_cons_succ env dir cmd d rest i fs out h1 h2]
  simp [save_config_to_file, h3]

/-- Witness for C5: collection succeeds with `hostname sw1` but every archive
    write raises; the success count is still incremented and the filesystem
    is untouched. -/
theorem C5_persist_failure_keeps_success_witness :
    (get_switch_config envNoPersist devA none).output = some "hostname sw1" ∧
    ("hostname sw1" : String) ≠ "" ∧
    envNoPersist.persistOk devA.ip = false ∧
    process_connection_go envNoPersist "config_storage/normal" none
        (devA :: []) 0 fs0 =
      (⟨devA, (get_switch_config envNoPersist devA none).command,
          some "hostname sw1",
          (get_switch_config envNoPersist devA none).errorKind⟩ ::
          (process_connection_go envNoPersist "config_storage/normal" none
            [] 1 fs0).1,
        1 + (process_connection_go envNoPersist "config_storage/normal" none
            [] 1 fs0).2.1,
        (process_connection_go envNoPersist "config_storage/normal" none
          [] 1 fs0).2.2) :=
  ⟨rfl, by decide, rfl,
    C5_persist_failure_keeps_success envNoPersist devA none "hostname sw1"
      "config_storage/normal" [] 0 fs0 rfl (by decide) rfl⟩

/-- Claim C6: the command resolver is a pure total function: each of the nine
    dialects of the mapping resolves to its canonical configuration command,
    and every dialect outside the mapping resolves to the generic fallback
    `show running-config` instead of failing. -/
theorem C6_resolver_total_with_fallback :
    get_config_command "cisco_ios" = "show running-config" ∧
    get_config_command "cisco_nxos" = "show running-config" ∧
    get_config_command "huawei" = "display current-configuration" ∧
    get_config_command "h3c" = "display current-configuration" ∧
    get_config_command "hp_comware" = "display current-configuration" ∧
    get_config_command "juniper_junos" = "show configuration" ∧
    get_config_command "arista_eos" = "show running-config" ∧
    get_config_command "fortinet" = "show full-configuration" ∧
    get_config_command "paloalto_panos" = "show configuration running" ∧
    ∀ d, d ∉ known_dialects → get_config_command d = "show running-config" := by
  refine ⟨rfl, rfl, rfl, rfl, rfl, rfl, rfl, rfl, rfl, ?_⟩
  intro d hd
  simp only [known_dialects, List.mem_cons, List.not_mem_nil, or_false,
    not_or] at hd
  obtain ⟨h1, h2, h3, h4, h5, h6, h7, h8, h9⟩ := hd
  simp [get_config_command, h1, h2, h3, h4, h5, h6, h7, h8, h9]

/-- Witness for C6: the unknown dialect `made_up_os` resolves to the generic
    fallback command. -/
theorem C6_resolver_total_with_fallback_witness :
    ("made_up_os" : String) ∉ known_dialects ∧
    get_config_command "made_up_os" = "show running-config" :=
  ⟨by decide,
    C6_resolver_total_with_fallback.2.2.2.2.2.2.2.2.2 "made_up_os"
      (by decide)⟩

/-- Claim C7: the working copy of the connection parameters is the stored
    profile minus the description — two profiles agreeing outside
    `description` yield the same working copy and the same collection result,
    so the collection never depends on (or alters) the description — and the
    outcomes of a pass carry the original, untouched device records. -/
theorem C7_profile_never_mutated (env : Transport) (cmd : Option String)
    (d : Device) (desc : String) (devices : List Device) (dir : String)
    (fs : Fs) :
    connParamsOf ⟨d.ip, d.port, d.device_type, d.username, d.password,
        d.secret, desc⟩ = connParamsOf d ∧
    get_switch_config env ⟨d.ip, d.port, d.device_type, d.username,
        d.password, d.secret, desc⟩ cmd = get_switch_config env d cmd ∧
    (process_connection env devices dir cmd fs).1.map (fun o => o.device) =
      devices :=
  ⟨rfl, rfl, process_connection_go_devices env dir cmd devices 0 fs⟩

/-- Claim C8: in the interactive loop, the sentinel `exit` read in
    AwaitingCommand stops the loop with no pass run; a non-affirmative
    confirmation read in AwaitingConfirmation stops the loop with no pass
    run; an affirmative confirmation runs exactly one pass with the entered
    command against the ad-hoc archive directory and returns the loop to
    AwaitingCommand. -/
theorem C8_loop_sentinel_and_confirmation (env : Transport)
    (devices : List Device) (fs : Fs) (inpN inpY cmd : String)
    (rest : List String) (hN : strLower inpN ≠ "y")
    (hY : strLower inpY = "y") :
    (loopStep .awaitingCommand "exit" = (.stopped, none) ∧
      execute_other_command_go env devices .awaitingCommand
        ("exit" :: rest) fs = ([], fs)) ∧
    (loopStep (.awaitingConfirmation cmd) inpN = (.stopped, none) ∧
      execute_other_command_go env devices (.awaitingConfirmation cmd)
        (inpN :: rest) fs = ([], fs)) ∧
    (loopStep (.awaitingConfirmation cmd) inpY =
        (.awaitingCommand, some cmd) ∧
      execute_other_command_go env devices (.awaitingConfirmation cmd)
        (inpY :: rest) fs =
        ((process_connection env devices other_dir (some cmd) fs).2.1 ::
            (execute_other_command_go env devices .awaitingCommand rest
              (process_connection env devices other_dir (some cmd)
                fs).2.2).1,
          (execute_other_command_go env devices .awaitingCommand rest
            (process_connection env devices other_dir (some cmd)
              fs).2.2).2)) := by
  refine ⟨⟨rfl, rfl⟩, ⟨?_, ?_⟩, ⟨?_, ?_⟩⟩
  · simp [loopStep, hN]
  · simp [execute_other_command_go, loopStep, hN]
  · simp [loopStep, hY]
  · simp [execute_other_command_go, loopStep, hY]

/-- Witness for C8 with inputs `n` (non-affirmative) and `Y` (affirmative,
    lowercased to `y`) on a concrete device list. -/
theorem C8_loop_sentinel_and_confirmation_witness :
    strLower "n" ≠ "y" ∧ strLower "Y" = "y" ∧
    ((loopStep .awaitingCommand "exit" = (.stopped, none) ∧
        execute_other_command_go envAllFail [devA] .awaitingCommand
          ["exit"] fs0 = ([], fs0)) ∧
      (loopStep (.awaitingConfirmation "ping 1.1.1.1") "n" =
          (.stopped, none) ∧
        execute_other_command_go envAllFail [devA]
          (.awaitingConfirmation "ping 1.1.1.1") ["n"] fs0 = ([], fs0)) ∧
      (loopStep (.awaitingConfirmation "ping 1.1.1.1") "Y" =
          (.awaitingCommand, some "ping 1.1.1.1") ∧
        execute_other_command_go envAllFail [devA]
          (.awaitingConfirmation "ping 1.1.1.1") ["Y"] fs0 =
          ((process_connection envAllFail [devA] other_dir
              (some "ping 1.1.1.1") fs0).2.1 ::
              (execute_other_command_go envAllFail [devA] .awaitingCommand []
                (process_connection envAllFail [devA] other_dir
                  (some "ping 1.1.1.1") fs0).2.2).1,
            (execute_other_command_go envAllFail [devA] .awaitingCommand []
              (process_connection envAllFail [devA] other_dir
                (some "ping 1.1.1.1") fs0).2.2).2))) :=
  ⟨by decide, by decide,
    C8_loop_sentinel_and_confirmation envAllFail [devA] fs0 "n" "Y"
      "ping 1.1.1.1" [] (by decide) (by decide)⟩

/-- Claim C9 (code behavior at the failing input): because `port` is listed
    in `required_columns`, an inventory without a `port` column is rejected
    outright — `load_devices_from_excel_conf` returns the empty list and the
    batch never runs, so the `port`-defaulting branch is unreachable. -/
theorem C9_missing_port_rejected (df : InventoryFrame)
    (h : df.columns.contains "port" = false) :
    load_devices_from_excel_conf df = [] := by
  have hmem : "port" ∈ required_columns.filter
      (fun c => ¬ df.columns.contains c) :=
    List.mem_filter.mpr ⟨by simp [required_columns], by
      show decide (¬ (df.columns.contains "port" = true)) = true
      rw [h]
      rfl⟩
  have hne : required_columns.filter
      (fun c => ¬ df.columns.contains c) ≠ [] :=
    List.ne_nil_of_mem hmem
  show (if required_columns.filter (fun c => ¬ df.columns.contains c) ≠ []
      then ([] : List (List (String × CellVal)))
      else _) = []
  rw [if_pos hne]

/-- A one-device inventory whose `port` column is omitted. -/
def dfNoPort : InventoryFrame :=
  ⟨["ip", "device_type", "username", "password"],
    [[("ip", .vStr "10.0.0.1"), ("device_type", .vStr "cisco_ios"),
      ("username", .vStr "admin"), ("password", .vStr "pw")]]⟩

/-- Witness for C9: the concrete port-less inventory is rejected with an
    empty device list instead of being defaulted to port 22. -/
theorem C9_missing_port_rejected_witness :
    dfNoPort.columns.contains "port" = false ∧
    load_devices_from_excel_conf dfNoPort = [] :=
  ⟨by decide, C9_missing_port_rejected dfNoPort (by decide)⟩

/-- Claim C10: a device whose command executes but returns an empty output is
    recorded as a failure — it adds nothing to the success tally and nothing
    to the archive, and the pass continues — and an empty caller-supplied
    command is treated as absent: the resolver default is used, so the whole
    attempt behaves as if no command had been supplied. -/
theorem C10_empty_output_and_empty_command (env : Transport) (d d' : Device)
    (cmd : Option String) (dir : String) (rest : List Device) (i : Nat)
    (fs : Fs) (h : (get_switch_config env d cmd).output = some "") :
    process_connection_go env dir cmd (d :: rest) i fs =
      (⟨d, (get_switch_config env d cmd).command, some "",
          (get_switch_config env d cmd).errorKind⟩ ::
          (process_connection_go env dir cmd rest (i + 1) fs).1,
        (process_connection_go env dir cmd rest (i + 1) fs).2.1,
        (process_connection_go env dir cmd rest (i + 1) fs).2.2) ∧
    chooseCommand (some "") d'.device_type =
      get_config_command d'.device_type ∧
    get_switch_config env d' (some "") = get_switch_config env d' none := by
  refine ⟨?_, rfl, rfl⟩
  rw [process_connection_go_cons_fail env dir cmd d rest i fs
    (by simp [h])]
  rw [h]

/-- Witness for C10: on the empty-output transport the device is tallied as
    a failure with nothing written, and an empty entered command resolves to
    the dialect default. -/
theorem C10_empty_output_and_empty_command_witness :
    (get_switch_config envEmptyOut devA none).output = some "" ∧
    (process_connection_go envEmptyOut "config_storage/other" none
        (devA :: []) 0 fs0 =
      (⟨devA, (get_switch_config envEmptyOut devA none).command, some "",
          (get_switch_config envEmptyOut devA none).errorKind⟩ ::
          (process_connection_go envEmptyOut "config_storage/other" none
            [] 1 fs0).1,
        (process_connection_go envEmptyOut "config_storage/other" none
          [] 1 fs0).2.1,
        (process_connection_go envEmptyOut "config_storage/other" none
          [] 1 fs0).2.2) ∧
      chooseCommand (some "") devB.device_type =
        get_config_command devB.device_type ∧
      get_switch_config envEmptyOut devB (some "") =
        get_switch_config envEmptyOut devB none) :=
  ⟨rfl,
    C10_empty_output_and_empty_command envEmptyOut devA devB none
      "config_storage/other" [] 0 fs0 rfl⟩

end AutoCollect
